import Mathlib

/-!
Shallow embedding of `pyzoo/zoo/zouwu/model/forecast.py` (analytics-zoo).

The file under verification defines three classes:

* `Forecaster` — abstract base (metaclass `ABCMeta`), whose `__init__` runs
  `self.model_ = self._build()` and then `super().__init__(self.model_)`
  (the `TFParkKerasModel` base initializer), and whose `_build` is abstract;
* `LSTMForecaster` — stores `horizon`, `check_optional_config`, `uncertainty`,
  `feature_dim` and a `model_config` dict, and `_build` constructs
  `LSTMKerasModel(check_optional_config=…, future_seq_len=self.horizon)`,
  assigns `internal.feature_num = self.feature_dim`, and returns
  `internal._build(mc=self.uncertainty, **self.model_config)`;
* `MTNetForecaster` — stores `check_optional_config`, `mc`, a `model_config`
  dict and `internal = None`, and `_build` constructs
  `MTNetKerasModel(check_optional_config=…, future_seq_len=self.model_config.get('horizon'))`,
  calls `internal._get_attributes(mc=…, metrics=…, epochs=1, config=…)` and
  returns `internal._build_train(mc=…, metrics=…)`; it also defines
  `preprocess_input(x) = self.internal._gen_hist_inputs(x)`.

The external collaborators (`LSTMKerasModel._build`, `MTNetKerasModel`'s
methods, `TFParkKerasModel.__init__`) are opaque: they are parameters of the
embedding (`Externals`), may fail (`Option`), and every call into them is
recorded in an event trace so that the forwarded arguments can be inspected.
-/

/-- Python runtime values, as far as this module manipulates them:
`None`, booleans, ints, floats (kept symbolically as rationals — this module
never computes with them, it only forwards them), strings and lists. -/
inductive PyVal where
  | pyNone : PyVal
  | pyBool : Bool → PyVal
  | pyInt : Int → PyVal
  | pyRat : ℚ → PyVal
  | pyStr : String → PyVal
  | pyList : List PyVal → PyVal


/-- A Python dict with string keys, as an association list (insertion order,
first binding wins — the dicts in this module never repeat a key). -/
abbrev Dict := List (String × PyVal)

/-- Python's `d.get(k)`: the bound value, or `None` when the key is absent. -/
def Dict.get (d : Dict) (k : String) : PyVal :=
  match List.lookup k d with
  | some v => v
  | none => PyVal.pyNone

/-- The state of a `VanillaLSTM` (imported as `LSTMKerasModel`) instance as
visible to this module: its two constructor arguments, plus the
`feature_num` attribute that `LSTMForecaster._build` assigns after
construction (`none` = attribute not set). -/
structure LSTMKerasModel where
  check_optional_config : Bool
  future_seq_len : PyVal
  feature_num : Option PyVal


/-- The state of an `MTNetKeras` (imported as `MTNetKerasModel`) instance as
visible to this module: its two constructor arguments, plus an opaque
component `ext` of type `κ` holding whatever attributes the external
library manages (`_get_attributes` / `_build_train` may rewrite it). -/
structure MTNetKerasModel (κ : Type) where
  check_optional_config : Bool
  future_seq_len : PyVal
  ext : κ


/-- One call from this module into external code, with the arguments passed. -/
inductive Event (μ : Type) where
  | lstmKerasInit (check_optional_config : Bool) (future_seq_len : PyVal)
  | lstmKerasBuildCall (selfObj : LSTMKerasModel) (mc : Bool) (kwargs : Dict)
  | mtnetKerasInit (check_optional_config : Bool) (future_seq_len : PyVal)
  | mtnetGetAttributesCall (mc : Bool) (metrics : PyVal) (epochs : PyVal) (config : Dict)
  | mtnetBuildTrainCall (mc : Bool) (metrics : PyVal)
  | tfparkKerasInit (model : μ)


/-- The external collaborators, as opaque parameters. `κ` is the opaque
attribute state of an `MTNetKerasModel`; `μ` is the type of the (compiled)
tf.keras model objects the builders return. A result of `none` models the
external call raising. -/
structure Externals (κ μ : Type) where
  lstmKerasBuild : LSTMKerasModel → Bool → Dict → Option μ
  mtnetInit : Bool → PyVal → κ
  mtnetGetAttributes : MTNetKerasModel κ → Bool → PyVal → PyVal → Dict → Option κ
  mtnetBuildTrain : MTNetKerasModel κ → Bool → PyVal → Option (κ × μ)
  tfparkKerasInit : μ → Option Unit
  genHistInputs : MTNetKerasModel κ → PyVal → PyVal

/-- `Forecaster.__init__`: given the outcome of `self._build()` (extra state
`σ` produced by the subclass, the returned model, the call trace so far),
store the model in `self.model_` (the middle component of the result) and
pass that same object to `TFParkKerasModel.__init__`. -/
def Forecaster.init {σ μ : Type} (tfparkKerasInit : μ → Option Unit)
    (buildResult : Option (σ × μ × List (Event μ))) : Option (σ × μ × List (Event μ)) :=
  match buildResult with
  | none => none
  | some (s, m, tr) =>
    match tfparkKerasInit m with
    | none => none
    | some _ => some (s, m, tr ++ [Event.tfparkKerasInit m])

/-- The attributes `LSTMForecaster.__init__` assigns before `super().__init__()`. -/
structure LSTMForecasterAttrs where
  horizon : PyVal
  check_optional_config : Bool
  uncertainty : Bool
  feature_dim : PyVal
  model_config : Dict


/-- The attribute assignments of `LSTMForecaster.__init__` (everything before
`super().__init__()`). -/
def LSTMForecaster.attrsOf
    (horizon feature_dim lstm_1_units dropout_1 lstm_2_units dropout_2 metric lr : PyVal)
    (uncertainty : Bool) : LSTMForecasterAttrs :=
  { horizon := horizon
    check_optional_config := false
    uncertainty := uncertainty
    feature_dim := feature_dim
    model_config := [("lr", lr), ("lstm_1_units", lstm_1_units), ("dropout_1", dropout_1),
      ("lstm_2_units", lstm_2_units), ("dropout_2", dropout_2), ("metric", metric)] }

/-- The `LSTMKerasModel(check_optional_config=self.check_optional_config,
future_seq_len=self.horizon)` constructor call inside `LSTMForecaster._build`
(before the `feature_num` assignment). -/
def LSTMForecaster.mkInternal (self : LSTMForecasterAttrs) : LSTMKerasModel :=
  { check_optional_config := self.check_optional_config
    future_seq_len := self.horizon
    feature_num := none }

/-- `LSTMForecaster._build`: construct the internal model, assign its
`feature_num`, and call `internal._build(mc=self.uncertainty,
**self.model_config)`. -/
def LSTMForecaster._build {κ μ : Type} (ext : Externals κ μ) (self : LSTMForecasterAttrs) :
    Option (μ × List (Event μ)) :=
  let internal :=
    { LSTMForecaster.mkInternal self with feature_num := some self.feature_dim }
  match ext.lstmKerasBuild internal self.uncertainty self.model_config with
  | none => none
  | some m =>
    some (m, [Event.lstmKerasInit self.check_optional_config self.horizon,
      Event.lstmKerasBuildCall internal self.uncertainty self.model_config])

/-- A fully constructed `LSTMForecaster` instance. -/
structure LSTMForecaster (μ : Type) where
  horizon : PyVal
  check_optional_config : Bool
  uncertainty : Bool
  feature_dim : PyVal
  model_config : Dict
  model_ : μ


/-- `LSTMForecaster.__init__`: assign the attributes, then run
`Forecaster.__init__` (which calls `_build` and the `TFParkKerasModel`
initializer). -/
def LSTMForecaster.init {κ μ : Type} (ext : Externals κ μ)
    (horizon feature_dim lstm_1_units dropout_1 lstm_2_units dropout_2 metric lr : PyVal)
    (uncertainty : Bool) : Option (LSTMForecaster μ × List (Event μ)) :=
  let attrs := LSTMForecaster.attrsOf horizon feature_dim lstm_1_units dropout_1
    lstm_2_units dropout_2 metric lr uncertainty
  match Forecaster.init ext.tfparkKerasInit
      ((LSTMForecaster._build ext attrs).map (fun p => ((), p.1, p.2))) with
  | none => none
  | some (_, m, tr) =>
    some ({ horizon := attrs.horizon
            check_optional_config := attrs.check_optional_config
            uncertainty := attrs.uncertainty
            feature_dim := attrs.feature_dim
            model_config := attrs.model_config
            model_ := m }, tr)

/-- The attributes `MTNetForecaster.__init__` assigns before
`super().__init__()` (besides `self.internal = None`). -/
structure MTNetForecasterAttrs where
  check_optional_config : Bool
  mc : Bool
  model_config : Dict


/-- The `model_config` dict `MTNetForecaster.__init__` builds: the horizon
is stored under the key `output_dim`. -/
def MTNetForecaster.configOf (horizon feature_dim metric : PyVal) : Dict :=
  [("feature_num", feature_dim), ("output_dim", horizon),
   ("metrics", PyVal.pyList [metric])]

/-- The attribute assignments of `MTNetForecaster.__init__` (everything
before `super().__init__()`). -/
def MTNetForecaster.attrsOf (horizon feature_dim metric : PyVal) (uncertainty : Bool) :
    MTNetForecasterAttrs :=
  { check_optional_config := false
    mc := uncertainty
    model_config := MTNetForecaster.configOf horizon feature_dim metric }

/-- The `MTNetKerasModel(check_optional_config=self.check_optional_config,
future_seq_len=self.model_config.get('horizon'))` constructor call inside
`MTNetForecaster._build`. -/
def MTNetForecaster.mkInternal {κ μ : Type} (ext : Externals κ μ)
    (self : MTNetForecasterAttrs) : MTNetKerasModel κ :=
  { check_optional_config := self.check_optional_config
    future_seq_len := Dict.get self.model_config "horizon"
    ext := ext.mtnetInit self.check_optional_config (Dict.get self.model_config "horizon") }

/-- `MTNetForecaster._build`: construct the internal model, call
`internal._get_attributes(mc=self.mc, metrics=self.model_config.get('metrics'),
epochs=1, config=self.model_config)`, and return
`internal._build_train(mc=self.mc, metrics=self.model_config.get('metrics'))`.
The result carries the final `self.internal` object alongside the model. -/
def MTNetForecaster._build {κ μ : Type} (ext : Externals κ μ) (self : MTNetForecasterAttrs) :
    Option (MTNetKerasModel κ × μ × List (Event μ)) :=
  let internal0 := MTNetForecaster.mkInternal ext self
  match ext.mtnetGetAttributes internal0 self.mc (Dict.get self.model_config "metrics")
      (PyVal.pyInt 1) self.model_config with
  | none => none
  | some k1 =>
    let internal1 := { internal0 with ext := k1 }
    match ext.mtnetBuildTrain internal1 self.mc (Dict.get self.model_config "metrics") with
    | none => none
    | some km =>
      some ({ internal1 with ext := km.1 }, km.2,
        [Event.mtnetKerasInit self.check_optional_config internal0.future_seq_len,
         Event.mtnetGetAttributesCall self.mc (Dict.get self.model_config "metrics")
           (PyVal.pyInt 1) self.model_config,
         Event.mtnetBuildTrainCall self.mc (Dict.get self.model_config "metrics")])

/-- A fully constructed `MTNetForecaster` instance. `internal` is an `Option`
because `__init__` first sets it to `None`; `_build` then overwrites it. -/
structure MTNetForecaster (κ μ : Type) where
  check_optional_config : Bool
  mc : Bool
  model_config : Dict
  internal : Option (MTNetKerasModel κ)
  model_ : μ


/-- `MTNetForecaster.__init__`: assign the attributes (`internal` starts as
`None`), then run `Forecaster.__init__`. -/
def MTNetForecaster.init {κ μ : Type} (ext : Externals κ μ)
    (horizon feature_dim metric : PyVal) (uncertainty : Bool) :
    Option (MTNetForecaster κ μ × List (Event μ)) :=
  let attrs := MTNetForecaster.attrsOf horizon feature_dim metric uncertainty
  match Forecaster.init ext.tfparkKerasInit (MTNetForecaster._build ext attrs) with
  | none => none
  | some (intl, m, tr) =>
    some ({ check_optional_config := attrs.check_optional_config
            mc := attrs.mc
            model_config := attrs.model_config
            internal := some intl
            model_ := m }, tr)

/-- `MTNetForecaster.preprocess_input`: `self.internal._gen_hist_inputs(x)`.
When `self.internal` is `None` the attribute access raises (`none`). -/
def MTNetForecaster.preprocess_input {κ μ : Type} (ext : Externals κ μ)
    (self : MTNetForecaster κ μ) (x : PyVal) : Option PyVal :=
  match self.internal with
  | none => none
  | some i => some (ext.genHistInputs i x)

/-! ### The abstract-base-class machinery

`Forecaster` uses `metaclass=ABCMeta` and marks `_build` with
`@abstractmethod`. Modelled from the documented semantics of Python's `abc`
module (external to this repository): a class records, for each method name,
whether the resolved definition is abstract; instantiation raises `TypeError`
exactly when some resolved method is still abstract. -/

/-- A resolved method table: method name paired with "is abstract". -/
abbrev MethodTable := List (String × Bool)

/-- Method resolution for single inheritance: the child's definitions shadow
the base's. -/
def overrideTable (base child : MethodTable) : MethodTable :=
  child ++ base.filter (fun p => List.lookup p.1 child = none)

/-- The names whose resolved definition is still abstract
(`cls.__abstractmethods__`). -/
def abstractMethods (t : MethodTable) : List String :=
  (t.filter (fun p => p.2)).map (fun p => p.1)

/-- Instantiating a class under `ABCMeta`: raises `TypeError` iff some
abstract method is unimplemented. -/
def instantiateClass (t : MethodTable) : Except String Unit :=
  if (abstractMethods t).isEmpty then Except.ok () else Except.error "TypeError"

/-- `TFParkKerasModel` (external base): no abstract methods relevant here. -/
def TFParkKerasModelMethods : MethodTable := [("__init__", false)]

/-- `Forecaster`: defines `__init__` and an `@abstractmethod _build`. -/
def ForecasterMethods : MethodTable :=
  overrideTable TFParkKerasModelMethods [("__init__", false), ("_build", true)]

/-- `LSTMForecaster`: overrides `__init__` and `_build` concretely. -/
def LSTMForecasterMethods : MethodTable :=
  overrideTable ForecasterMethods [("__init__", false), ("_build", false)]

/-- `MTNetForecaster`: overrides `__init__`, `_build` and adds
`preprocess_input` concretely. -/
def MTNetForecasterMethods : MethodTable :=
  overrideTable ForecasterMethods
    [("__init__", false), ("_build", false), ("preprocess_input", false)]

/-! ### A heap model of construction

For the frame property (constructing one forecaster does not disturb any
other object) the attribute assignments are replayed against an explicit
heap: objects are addressed by naturals, an attribute write touches only the
object it addresses, and `__init__` allocates fresh addresses for the
forecaster instance and for the internal Keras model it builds. External
calls are opaque to this heap: per the source they receive the arguments
shown in the trace model above and return a model object. -/

/-- A heap value: a Python value, a dict, an opaque external model object, or
a reference to another heap object. -/
inductive HVal (μ : Type) where
  | val : PyVal → HVal μ
  | dictV : Dict → HVal μ
  | obj : μ → HVal μ
  | ref : Nat → HVal μ

/-- The attributes of one heap object (latest write first). -/
abbrev PyObj (μ : Type) := List (String × HVal μ)

/-- A heap: addresses mapped to objects (latest allocation first). -/
abbrev Heap (μ : Type) := List (Nat × PyObj μ)

/-- Write attribute `k := v` on the object at address `a`. -/
def Heap.writeAttr {μ : Type} (h : Heap μ) (a : Nat) (k : String) (v : HVal μ) : Heap μ :=
  h.map (fun p => if p.1 = a then (p.1, (k, v) :: p.2) else p)

/-- Allocate an empty object at address `a`. -/
def Heap.allocAt {μ : Type} (h : Heap μ) (a : Nat) : Heap μ := (a, []) :: h

/-- An address not used by `h`. -/
def Heap.fresh {μ : Type} (h : Heap μ) : Nat :=
  (h.map Prod.fst).foldr (fun x y => max x y) 0 + 1

/-- Allocate a fresh object and perform the given attribute writes on it, in
order; return the new heap and the fresh address. -/
def Heap.allocWrites {μ : Type} (h : Heap μ) (ws : List (String × HVal μ)) : Heap μ × Nat :=
  let a := Heap.fresh h
  (ws.foldl (fun hh w => Heap.writeAttr hh a w.1 w.2) (Heap.allocAt h a), a)

/-- `LSTMForecaster.__init__` replayed on the heap: allocate `self`, assign
its attributes in source order, then (via `Forecaster.__init__` and
`_build`) allocate the internal `LSTMKerasModel`, assign its attributes,
call the external builder, and store `model_`. Returns the final heap and
`self`'s address. -/
def LSTMForecaster.constructH {κ μ : Type} (ext : Externals κ μ) (h : Heap μ)
    (horizon feature_dim lstm_1_units dropout_1 lstm_2_units dropout_2 metric lr : PyVal)
    (uncertainty : Bool) : Option (Heap μ × Nat) :=
  let config : Dict := [("lr", lr), ("lstm_1_units", lstm_1_units), ("dropout_1", dropout_1),
    ("lstm_2_units", lstm_2_units), ("dropout_2", dropout_2), ("metric", metric)]
  let p1 := Heap.allocWrites h
    [("horizon", HVal.val horizon),
     ("check_optional_config", HVal.val (PyVal.pyBool false)),
     ("uncertainty", HVal.val (PyVal.pyBool uncertainty)),
     ("feature_dim", HVal.val feature_dim),
     ("model_config", HVal.dictV config)]
  let p2 := Heap.allocWrites p1.1
    [("check_optional_config", HVal.val (PyVal.pyBool false)),
     ("future_seq_len", HVal.val horizon),
     ("feature_num", HVal.val feature_dim)]
  let internal : LSTMKerasModel :=
    { check_optional_config := false, future_seq_len := horizon,
      feature_num := some feature_dim }
  match ext.lstmKerasBuild internal uncertainty config with
  | none => none
  | some m =>
    match ext.tfparkKerasInit m with
    | none => none
    | some _ => some (Heap.writeAttr p2.1 p1.2 "model_" (HVal.obj m), p1.2)

/-- `MTNetForecaster.__init__` replayed on the heap, in source order:
allocate `self`, assign `check_optional_config`, `mc`, `model_config`,
`internal = None`; then `_build` allocates the internal `MTNetKerasModel`,
stores the reference in `internal`, calls the external methods, and
`Forecaster.__init__` stores `model_`. -/
def MTNetForecaster.constructH {κ μ : Type} (ext : Externals κ μ) (h : Heap μ)
    (horizon feature_dim metric : PyVal) (uncertainty : Bool) : Option (Heap μ × Nat) :=
  let config : Dict := [("feature_num", feature_dim), ("output_dim", horizon),
    ("metrics", PyVal.pyList [metric])]
  let p1 := Heap.allocWrites h
    [("check_optional_config", HVal.val (PyVal.pyBool false)),
     ("mc", HVal.val (PyVal.pyBool uncertainty)),
     ("model_config", HVal.dictV config),
     ("internal", HVal.val PyVal.pyNone)]
  let p2 := Heap.allocWrites p1.1
    [("check_optional_config", HVal.val (PyVal.pyBool false)),
     ("future_seq_len", HVal.val (Dict.get config "horizon"))]
  let h7 := Heap.writeAttr p2.1 p1.2 "internal" (HVal.ref p2.2)
  let internal0 := MTNetForecaster.mkInternal ext
    { check_optional_config := false, mc := uncertainty, model_config := config }
  match ext.mtnetGetAttributes internal0 uncertainty (Dict.get config "metrics")
      (PyVal.pyInt 1) config with
  | none => none
  | some k1 =>
    let internal1 := { internal0 with ext := k1 }
    match ext.mtnetBuildTrain internal1 uncertainty (Dict.get config "metrics") with
    | none => none
    | some km =>
      match ext.tfparkKerasInit km.2 with
      | none => none
      | some _ => some (Heap.writeAttr h7 p1.2 "model_" (HVal.obj km.2), p1.2)

/-- Concrete externals (opaque `MTNetKerasModel` attribute state `Unit`,
model objects `Nat`) on which every external call succeeds; used to evaluate
the embedding at concrete inputs. -/
def extU : Externals Unit Nat :=
  { lstmKerasBuild := fun _ _ _ => some 7
    mtnetInit := fun _ _ => ()
    mtnetGetAttributes := fun _ _ _ _ _ => some ()
    mtnetBuildTrain := fun _ _ _ => some ((), 9)
    tfparkKerasInit := fun _ => some ()
    genHistInputs := fun _ x => PyVal.pyList [x] }

/-! ### Heap lemmas -/

/-- Read the object stored at address `b`. -/
def Heap.lookupObj {μ : Type} : Heap μ → Nat → Option (PyObj μ)
  | [], _ => none
  | p :: t, b => if p.1 = b then some p.2 else Heap.lookupObj t b

/-- Writing an attribute of the object at `a` does not change the object at
any other address. -/
theorem Heap.lookupObj_writeAttr_ne {μ : Type} (h : Heap μ) (a b : Nat) (k : String)
    (v : HVal μ) (hne : b ≠ a) :
    Heap.lookupObj (Heap.writeAttr h a k v) b = Heap.lookupObj h b := by
  induction h with
  | nil => rfl
  | cons p t ih =>
    simp only [Heap.writeAttr, List.map_cons] at *
    by_cases hpa : p.1 = a
    · rw [if_pos hpa]
      have hpb : ¬ p.1 = b := fun hh => hne ((hpa.symm.trans hh).symm)
      simp only [Heap.lookupObj]
      rw [if_neg hpb, if_neg hpb]
      exact ih
    · rw [if_neg hpa]
      simp only [Heap.lookupObj]
      by_cases hpb : p.1 = b
      · rw [if_pos hpb, if_pos hpb]
      · rw [if_neg hpb, if_neg hpb]
        exact ih

/-- Writing an attribute changes no addresses. -/
theorem Heap.keys_writeAttr {μ : Type} (h : Heap μ) (a : Nat) (k : String) (v : HVal μ) :
    (Heap.writeAttr h a k v).map Prod.fst = h.map Prod.fst := by
  induction h with
  | nil => rfl
  | cons p t ih =>
    simp only [Heap.writeAttr, List.map_cons] at *
    by_cases hpa : p.1 = a
    · rw [if_pos hpa, ih]
    · rw [if_neg hpa, ih]

/-- Allocating at a different address does not change the object at `b`. -/
theorem Heap.lookupObj_allocAt_ne {μ : Type} (h : Heap μ) (a b : Nat) (hne : b ≠ a) :
    Heap.lookupObj (Heap.allocAt h a) b = Heap.lookupObj h b := by
  simp only [Heap.allocAt, Heap.lookupObj]
  rw [if_neg (fun hh : a = b => hne hh.symm)]

/-- A member of a list of naturals is at most its `foldr max`. -/
theorem le_foldr_max (l : List Nat) (x : Nat) (hx : x ∈ l) :
    x ≤ l.foldr (fun p q => max p q) 0 := by
  induction l with
  | nil => cases hx
  | cons y t ih =>
    rcases List.mem_cons.mp hx with h | h
    · subst h; exact le_max_left _ _
    · exact le_trans (ih h) (le_max_right _ _)

/-- A used address is never the fresh one. -/
theorem Heap.ne_fresh_of_mem {μ : Type} (h : Heap μ) (b : Nat)
    (hb : b ∈ h.map Prod.fst) : b ≠ Heap.fresh h := by
  intro he
  have hle := le_foldr_max (h.map Prod.fst) b hb
  rw [he] at hle
  unfold Heap.fresh at hle
  omega

/-- A fold of attribute writes at `a` does not change the object at `b ≠ a`. -/
theorem Heap.lookupObj_foldl_writeAttr_ne {μ : Type} (ws : List (String × HVal μ))
    (h : Heap μ) (a b : Nat) (hne : b ≠ a) :
    Heap.lookupObj (ws.foldl (fun hh w => Heap.writeAttr hh a w.1 w.2) h) b =
      Heap.lookupObj h b := by
  induction ws generalizing h with
  | nil => rfl
  | cons w t ih =>
    rw [List.foldl_cons, ih, Heap.lookupObj_writeAttr_ne _ _ _ _ _ hne]

/-- A fold of attribute writes changes no addresses. -/
theorem Heap.keys_foldl_writeAttr {μ : Type} (ws : List (String × HVal μ))
    (h : Heap μ) (a : Nat) :
    ((ws.foldl (fun hh w => Heap.writeAttr hh a w.1 w.2) h)).map Prod.fst =
      h.map Prod.fst := by
  induction ws generalizing h with
  | nil => rfl
  | cons w t ih => rw [List.foldl_cons, ih, Heap.keys_writeAttr]

/-- Allocating a fresh object and initializing its attributes does not change
any pre-existing object. -/
theorem Heap.lookupObj_allocWrites_ne {μ : Type} (h : Heap μ) (ws : List (String × HVal μ))
    (b : Nat) (hb : b ∈ h.map Prod.fst) :
    Heap.lookupObj (Heap.allocWrites h ws).1 b = Heap.lookupObj h b := by
  have hbf : b ≠ Heap.fresh h := Heap.ne_fresh_of_mem h b hb
  unfold Heap.allocWrites
  rw [Heap.lookupObj_foldl_writeAttr_ne _ _ _ _ hbf, Heap.lookupObj_allocAt_ne _ _ _ hbf]

/-- The addresses after `allocWrites` are the fresh one plus the old ones. -/
theorem Heap.keys_allocWrites {μ : Type} (h : Heap μ) (ws : List (String × HVal μ)) :
    ((Heap.allocWrites h ws).1).map Prod.fst = Heap.fresh h :: h.map Prod.fst := by
  unfold Heap.allocWrites
  rw [Heap.keys_foldl_writeAttr]
  rfl

/-! ### Characterizations of construction -/

/-- The internal `LSTMKerasModel` exactly as the external `_build` receives
it: constructed with `check_optional_config=False` and
`future_seq_len=horizon`, then `feature_num` assigned to `feature_dim`. -/
def LSTMForecaster.builtInternal (horizon feature_dim : PyVal) : LSTMKerasModel :=
  { check_optional_config := false, future_seq_len := horizon,
    feature_num := some feature_dim }

/-- Replace the opaque external attribute state of an `MTNetKerasModel`. -/
def MTNetKerasModel.setExt {κ : Type} (i : MTNetKerasModel κ) (k : κ) : MTNetKerasModel κ :=
  { i with ext := k }

/-- Unfolding `LSTMForecaster.init`: the external build is attempted on the
internal model (with `feature_num` already assigned); on success the model is
handed to the `TFParkKerasModel` initializer and stored in `model_`. -/
theorem lstm_init_eq {κ μ : Type} (ext : Externals κ μ)
    (horizon feature_dim lstm_1_units dropout_1 lstm_2_units dropout_2 metric lr : PyVal)
    (uncertainty : Bool) :
    LSTMForecaster.init ext horizon feature_dim lstm_1_units dropout_1 lstm_2_units
        dropout_2 metric lr uncertainty =
      (match ext.lstmKerasBuild (LSTMForecaster.builtInternal horizon feature_dim) uncertainty
          ((LSTMForecaster.attrsOf horizon feature_dim lstm_1_units dropout_1 lstm_2_units
            dropout_2 metric lr uncertainty).model_config) with
      | none => none
      | some m =>
        match ext.tfparkKerasInit m with
        | none => none
        | some _ =>
          some ({ horizon := horizon, check_optional_config := false,
                  uncertainty := uncertainty, feature_dim := feature_dim,
                  model_config := (LSTMForecaster.attrsOf horizon feature_dim lstm_1_units
                    dropout_1 lstm_2_units dropout_2 metric lr uncertainty).model_config,
                  model_ := m },
                [Event.lstmKerasInit false horizon,
                 Event.lstmKerasBuildCall (LSTMForecaster.builtInternal horizon feature_dim)
                   uncertainty
                   ((LSTMForecaster.attrsOf horizon feature_dim lstm_1_units dropout_1
                     lstm_2_units dropout_2 metric lr uncertainty).model_config),
                 Event.tfparkKerasInit m])) := by
  cases hE : ext.lstmKerasBuild (LSTMForecaster.builtInternal horizon feature_dim) uncertainty ((LSTMForecaster.attrsOf horizon feature_dim lstm_1_units dropout_1 lstm_2_units dropout_2 metric lr uncertainty).model_config) with
  | none =>
    simp only [LSTMForecaster.builtInternal, LSTMForecaster.attrsOf] at hE
    simp [LSTMForecaster.init, LSTMForecaster._build, Forecaster.init,
      LSTMForecaster.attrsOf, LSTMForecaster.mkInternal, hE]
  | some m =>
    simp only [LSTMForecaster.builtInternal, LSTMForecaster.attrsOf] at hE
    cases hT : ext.tfparkKerasInit m with
    | none =>
      simp [LSTMForecaster.init, LSTMForecaster._build, Forecaster.init,
        LSTMForecaster.attrsOf, LSTMForecaster.mkInternal, hE, hT]
    | some uu =>
      simp [LSTMForecaster.init, LSTMForecaster._build, Forecaster.init,
        LSTMForecaster.attrsOf, LSTMForecaster.mkInternal, LSTMForecaster.builtInternal,
        hE, hT]

/-- Unfolding `MTNetForecaster.init`: the internal model is constructed (with
`future_seq_len = model_config.get('horizon')`), `_get_attributes` and
`_build_train` are called in turn, and on success the returned model goes to
the `TFParkKerasModel` initializer and into `model_`, while the internal
object lands in `internal`. -/
theorem mtnet_init_eq {κ μ : Type} (ext : Externals κ μ)
    (horizon feature_dim metric : PyVal) (uncertainty : Bool) :
    MTNetForecaster.init ext horizon feature_dim metric uncertainty =
      (match ext.mtnetGetAttributes
          (MTNetForecaster.mkInternal ext
            (MTNetForecaster.attrsOf horizon feature_dim metric uncertainty))
          uncertainty
          (Dict.get (MTNetForecaster.configOf horizon feature_dim metric) "metrics")
          (PyVal.pyInt 1)
          (MTNetForecaster.configOf horizon feature_dim metric) with
      | none => none
      | some k1 =>
        match ext.mtnetBuildTrain
            (MTNetKerasModel.setExt
              (MTNetForecaster.mkInternal ext
                (MTNetForecaster.attrsOf horizon feature_dim metric uncertainty)) k1)
            uncertainty
            (Dict.get (MTNetForecaster.configOf horizon feature_dim metric) "metrics") with
        | none => none
        | some km =>
          match ext.tfparkKerasInit km.2 with
          | none => none
          | some _ =>
            some ({ check_optional_config := false, mc := uncertainty,
                    model_config := MTNetForecaster.configOf horizon feature_dim metric,
                    internal := some (MTNetKerasModel.setExt
                      (MTNetForecaster.mkInternal ext
                        (MTNetForecaster.attrsOf horizon feature_dim metric uncertainty))
                      km.1),
                    model_ := km.2 },
                  [Event.mtnetKerasInit false
                     (Dict.get (MTNetForecaster.configOf horizon feature_dim metric) "horizon"),
                   Event.mtnetGetAttributesCall uncertainty
                     (Dict.get (MTNetForecaster.configOf horizon feature_dim metric) "metrics")
                     (PyVal.pyInt 1)
                     (MTNetForecaster.configOf horizon feature_dim metric),
                   Event.mtnetBuildTrainCall uncertainty
                     (Dict.get (MTNetForecaster.configOf horizon feature_dim metric) "metrics"),
                   Event.tfparkKerasInit km.2])) := by
  cases hA : ext.mtnetGetAttributes (MTNetForecaster.mkInternal ext (MTNetForecaster.attrsOf horizon feature_dim metric uncertainty)) uncertainty (Dict.get (MTNetForecaster.configOf horizon feature_dim metric) "metrics") (PyVal.pyInt 1) (MTNetForecaster.configOf horizon feature_dim metric) with
  | none =>
    simp only [MTNetForecaster.mkInternal, MTNetForecaster.attrsOf,
      MTNetForecaster.configOf] at hA
    simp [MTNetForecaster.init, MTNetForecaster._build, Forecaster.init,
      MTNetForecaster.attrsOf, MTNetForecaster.configOf, MTNetForecaster.mkInternal, hA]
  | some k1 =>
    simp only [MTNetForecaster.mkInternal, MTNetForecaster.attrsOf,
      MTNetForecaster.configOf] at hA
    cases hB : ext.mtnetBuildTrain (MTNetKerasModel.setExt (MTNetForecaster.mkInternal ext (MTNetForecaster.attrsOf horizon feature_dim metric uncertainty)) k1) uncertainty (Dict.get (MTNetForecaster.configOf horizon feature_dim metric) "metrics") with
    | none =>
      simp only [MTNetForecaster.mkInternal, MTNetForecaster.attrsOf,
        MTNetForecaster.configOf, MTNetKerasModel.setExt] at hB
      simp [MTNetForecaster.init, MTNetForecaster._build, Forecaster.init,
        MTNetForecaster.attrsOf, MTNetForecaster.configOf, MTNetForecaster.mkInternal,
        MTNetKerasModel.setExt, hA, hB]
    | some km =>
      simp only [MTNetForecaster.mkInternal, MTNetForecaster.attrsOf,
        MTNetForecaster.configOf, MTNetKerasModel.setExt] at hB
      cases hT : ext.tfparkKerasInit km.2 with
      | none =>
        simp [MTNetForecaster.init, MTNetForecaster._build, Forecaster.init,
          MTNetForecaster.attrsOf, MTNetForecaster.configOf, MTNetForecaster.mkInternal,
          MTNetKerasModel.setExt, hA, hB, hT]
      | some uu =>
        simp [MTNetForecaster.init, MTNetForecaster._build, Forecaster.init,
          MTNetForecaster.attrsOf, MTNetForecaster.configOf, MTNetForecaster.mkInternal,
          MTNetKerasModel.setExt, hA, hB, hT]

/-! ### Claim theorems -/

/-- C3: `Forecaster.__init__` stores the value returned by `self._build()`
unchanged in `self.model_` and passes that same object to the
`TFParkKerasModel` base initializer: when `_build` produced `(s, m, tr)` and
the base initializer accepts `m`, construction yields exactly `m` as the
wrapped model, and the base initializer call on `m` is the last external
call. -/
theorem C3_base_init_stores_and_forwards_model {σ μ : Type}
    (tfInit : μ → Option Unit) (s : σ) (m : μ) (tr : List (Event μ))
    (hok : tfInit m = some ()) :
    Forecaster.init tfInit (some (s, m, tr)) =
      some (s, m, tr ++ [Event.tfparkKerasInit m]) := by
  simp [Forecaster.init, hok]

/-- Witness for C3 at a concrete model object. -/
theorem C3_base_init_stores_and_forwards_model_witness :
    Forecaster.init extU.tfparkKerasInit (some ((), 5, ([] : List (Event Nat)))) =
      some ((), 5, [Event.tfparkKerasInit 5]) :=
  C3_base_init_stores_and_forwards_model extU.tfparkKerasInit () 5 [] rfl

/-- C6: `Forecaster` is an abstract contract: its resolved `_build` is still
abstract, so instantiating it raises `TypeError`, while both concrete
subclasses override `_build` and instantiate without error. -/
theorem C6_forecaster_abstract_contract :
    abstractMethods ForecasterMethods = ["_build"] ∧
    instantiateClass ForecasterMethods = Except.error "TypeError" ∧
    instantiateClass LSTMForecasterMethods = Except.ok () ∧
    instantiateClass MTNetForecasterMethods = Except.ok () :=
  ⟨rfl, rfl, rfl, rfl⟩

/-- C8: for every horizon `h`, `MTNetForecaster.__init__` stores the horizon
under the key `output_dim`, so `model_config.get('horizon')` is `None`, and
the internal `MTNetKerasModel` constructed inside `_build` has
`future_seq_len = None` — regardless of `h`. -/
theorem C8_mtnet_future_seq_len_always_none {κ μ : Type} (ext : Externals κ μ)
    (horizon feature_dim metric : PyVal) (uncertainty : Bool) :
    List.lookup "output_dim" (MTNetForecaster.configOf horizon feature_dim metric) =
        some horizon ∧
    Dict.get (MTNetForecaster.configOf horizon feature_dim metric) "horizon" =
        PyVal.pyNone ∧
    (MTNetForecaster.mkInternal ext
        (MTNetForecaster.attrsOf horizon feature_dim metric uncertainty)).future_seq_len =
      PyVal.pyNone :=
  ⟨rfl, rfl, rfl⟩

/-- C1 fails on the code (see C8): evaluated at horizon 2, the constructed
`MTNetForecaster`'s internal model has `future_seq_len = None`, and
`None ≠ 2`. -/
theorem C1_mtnet_horizon_not_forwarded_eval :
    MTNetForecaster.init extU (PyVal.pyInt 2) (PyVal.pyInt 1)
        (PyVal.pyStr "mean_squared_error") false =
      some ({ check_optional_config := false, mc := false,
              model_config := [("feature_num", PyVal.pyInt 1), ("output_dim", PyVal.pyInt 2),
                ("metrics", PyVal.pyList [PyVal.pyStr "mean_squared_error"])],
              internal := some (MTNetKerasModel.mk false PyVal.pyNone ()),
              model_ := 9 },
            [Event.mtnetKerasInit false PyVal.pyNone,
             Event.mtnetGetAttributesCall false
               (PyVal.pyList [PyVal.pyStr "mean_squared_error"]) (PyVal.pyInt 1)
               [("feature_num", PyVal.pyInt 1), ("output_dim", PyVal.pyInt 2),
                ("metrics", PyVal.pyList [PyVal.pyStr "mean_squared_error"])],
             Event.mtnetBuildTrainCall false (PyVal.pyList [PyVal.pyStr "mean_squared_error"]),
             Event.tfparkKerasInit 9]) ∧
    PyVal.pyNone ≠ PyVal.pyInt 2 :=
  ⟨rfl, fun hcontra => PyVal.noConfusion hcontra⟩

/-- Inversion: a successful `LSTMForecaster` construction determines the
external calls, the final state and the trace. -/
theorem lstm_init_inv {κ μ : Type} {ext : Externals κ μ}
    {h fd l1 d1 l2 d2 me lr : PyVal} {u : Bool}
    {st : LSTMForecaster μ} {tr : List (Event μ)}
    (hI : LSTMForecaster.init ext h fd l1 d1 l2 d2 me lr u = some (st, tr)) :
    ∃ m, ext.lstmKerasBuild (LSTMForecaster.builtInternal h fd) u
        ((LSTMForecaster.attrsOf h fd l1 d1 l2 d2 me lr u).model_config) = some m ∧
      ext.tfparkKerasInit m = some () ∧
      st = { horizon := h, check_optional_config := false, uncertainty := u,
             feature_dim := fd,
             model_config := (LSTMForecaster.attrsOf h fd l1 d1 l2 d2 me lr u).model_config,
             model_ := m } ∧
      tr = [Event.lstmKerasInit false h,
            Event.lstmKerasBuildCall (LSTMForecaster.builtInternal h fd) u
              ((LSTMForecaster.attrsOf h fd l1 d1 l2 d2 me lr u).model_config),
            Event.tfparkKerasInit m] := by
  rw [lstm_init_eq] at hI
  split at hI
  · simp at hI
  · rename_i m heq
    split at hI
    · simp at hI
    · rename_i v heq2
      simp only [Option.some.injEq, Prod.mk.injEq] at hI
      obtain ⟨hst, htr⟩ := hI
      exact ⟨m, heq, by cases v; exact heq2, hst.symm, htr.symm⟩

/-- Inversion: a successful `MTNetForecaster` construction determines the
external calls, the final state and the trace. -/
theorem mtnet_init_inv {κ μ : Type} {ext : Externals κ μ}
    {hM fdM meM : PyVal} {uM : Bool}
    {st : MTNetForecaster κ μ} {tr : List (Event μ)}
    (hI : MTNetForecaster.init ext hM fdM meM uM = some (st, tr)) :
    ∃ k1 km,
      ext.mtnetGetAttributes
          (MTNetForecaster.mkInternal ext (MTNetForecaster.attrsOf hM fdM meM uM)) uM
          (Dict.get (MTNetForecaster.configOf hM fdM meM) "metrics") (PyVal.pyInt 1)
          (MTNetForecaster.configOf hM fdM meM) = some k1 ∧
      ext.mtnetBuildTrain
          (MTNetKerasModel.setExt
            (MTNetForecaster.mkInternal ext (MTNetForecaster.attrsOf hM fdM meM uM)) k1) uM
          (Dict.get (MTNetForecaster.configOf hM fdM meM) "metrics") = some km ∧
      ext.tfparkKerasInit km.2 = some () ∧
      st = { check_optional_config := false, mc := uM,
             model_config := MTNetForecaster.configOf hM fdM meM,
             internal := some (MTNetKerasModel.setExt
               (MTNetForecaster.mkInternal ext (MTNetForecaster.attrsOf hM fdM meM uM)) km.1),
             model_ := km.2 } ∧
      tr = [Event.mtnetKerasInit false
              (Dict.get (MTNetForecaster.configOf hM fdM meM) "horizon"),
            Event.mtnetGetAttributesCall uM
              (Dict.get (MTNetForecaster.configOf hM fdM meM) "metrics") (PyVal.pyInt 1)
              (MTNetForecaster.configOf hM fdM meM),
            Event.mtnetBuildTrainCall uM
              (Dict.get (MTNetForecaster.configOf hM fdM meM) "metrics"),
            Event.tfparkKerasInit km.2] := by
  rw [mtnet_init_eq] at hI
  split at hI
  · simp at hI
  · rename_i k1 heq
    split at hI
    · simp at hI
    · rename_i km heq2
      split at hI
      · simp at hI
      · rename_i v heq3
        simp only [Option.some.injEq, Prod.mk.injEq] at hI
        obtain ⟨hst, htr⟩ := hI
        exact ⟨k1, km, heq, heq2, by cases v; exact heq3, hst.symm, htr.symm⟩

/-- C2: given any hyperparameter values, when the external model-building
routines succeed (`LSTMKerasModel._build`, `MTNetKerasModel._get_attributes`,
`MTNetKerasModel._build_train`, `TFParkKerasModel.__init__`), construction of
both forecasters completes without raising and the constructed objects carry
the attributes the wrapped-model API expects: `model_` on both; `horizon`,
`uncertainty`, `feature_dim`, `model_config` on `LSTMForecaster`; `mc`,
`model_config`, `internal` on `MTNetForecaster`. -/
theorem C2_construction_succeeds_and_exposes_attributes {κ μ : Type} (ext : Externals κ μ)
    (h fd l1 d1 l2 d2 me lr hM fdM meM : PyVal) (u uM : Bool)
    (m : μ) (k1 : κ) (km : κ × μ)
    (hL : ext.lstmKerasBuild (LSTMForecaster.builtInternal h fd) u
      ((LSTMForecaster.attrsOf h fd l1 d1 l2 d2 me lr u).model_config) = some m)
    (hTm : ext.tfparkKerasInit m = some ())
    (hG : ext.mtnetGetAttributes
      (MTNetForecaster.mkInternal ext (MTNetForecaster.attrsOf hM fdM meM uM)) uM
      (Dict.get (MTNetForecaster.configOf hM fdM meM) "metrics") (PyVal.pyInt 1)
      (MTNetForecaster.configOf hM fdM meM) = some k1)
    (hB : ext.mtnetBuildTrain
      (MTNetKerasModel.setExt
        (MTNetForecaster.mkInternal ext (MTNetForecaster.attrsOf hM fdM meM uM)) k1) uM
      (Dict.get (MTNetForecaster.configOf hM fdM meM) "metrics") = some km)
    (hTk : ext.tfparkKerasInit km.2 = some ()) :
    LSTMForecaster.init ext h fd l1 d1 l2 d2 me lr u =
      some ({ horizon := h, check_optional_config := false, uncertainty := u,
              feature_dim := fd,
              model_config := (LSTMForecaster.attrsOf h fd l1 d1 l2 d2 me lr u).model_config,
              model_ := m },
            [Event.lstmKerasInit false h,
             Event.lstmKerasBuildCall (LSTMForecaster.builtInternal h fd) u
               ((LSTMForecaster.attrsOf h fd l1 d1 l2 d2 me lr u).model_config),
             Event.tfparkKerasInit m]) ∧
    MTNetForecaster.init ext hM fdM meM uM =
      some ({ check_optional_config := false, mc := uM,
              model_config := MTNetForecaster.configOf hM fdM meM,
              internal := some (MTNetKerasModel.setExt
                (MTNetForecaster.mkInternal ext (MTNetForecaster.attrsOf hM fdM meM uM)) km.1),
              model_ := km.2 },
            [Event.mtnetKerasInit false
               (Dict.get (MTNetForecaster.configOf hM fdM meM) "horizon"),
             Event.mtnetGetAttributesCall uM
               (Dict.get (MTNetForecaster.configOf hM fdM meM) "metrics") (PyVal.pyInt 1)
               (MTNetForecaster.configOf hM fdM meM),
             Event.mtnetBuildTrainCall uM
               (Dict.get (MTNetForecaster.configOf hM fdM meM) "metrics"),
             Event.tfparkKerasInit km.2]) := by
  constructor
  · rw [lstm_init_eq]
    simp only [hL, hTm]
  · rw [mtnet_init_eq]
    simp only [hG, hB, hTk]

/-- C4: each leaf forecaster stores its hyperparameters in `model_config`
with exactly the stated key/value bindings, and forwards that very dict to
the external model construction call (`**model_config` for the LSTM build,
`config=model_config` for `_get_attributes`). -/
theorem C4_model_config_exact_and_forwarded {κ μ : Type} (ext : Externals κ μ)
    (h fd l1 d1 l2 d2 me lr hM fdM meM : PyVal) (u uM : Bool)
    (stL : LSTMForecaster μ) (trL : List (Event μ))
    (stM : MTNetForecaster κ μ) (trM : List (Event μ))
    (hIL : LSTMForecaster.init ext h fd l1 d1 l2 d2 me lr u = some (stL, trL))
    (hIM : MTNetForecaster.init ext hM fdM meM uM = some (stM, trM)) :
    stL.model_config = [("lr", lr), ("lstm_1_units", l1), ("dropout_1", d1),
      ("lstm_2_units", l2), ("dropout_2", d2), ("metric", me)] ∧
    Event.lstmKerasBuildCall (LSTMForecaster.builtInternal h fd) u stL.model_config ∈ trL ∧
    stM.model_config = [("feature_num", fdM), ("output_dim", hM),
      ("metrics", PyVal.pyList [meM])] ∧
    Event.mtnetGetAttributesCall uM (Dict.get stM.model_config "metrics") (PyVal.pyInt 1)
      stM.model_config ∈ trM := by
  obtain ⟨m, hm, hTm, hst, htr⟩ := lstm_init_inv hIL
  obtain ⟨k1, km, hk1, hkm, hTk, hstM, htrM⟩ := mtnet_init_inv hIM
  subst hst htr hstM htrM
  refine ⟨rfl, ?_, rfl, ?_⟩
  · simp [LSTMForecaster.attrsOf]
  · simp [MTNetForecaster.configOf]

/-- C5: the uncertainty flag is forwarded unchanged as the `mc` keyword of
every external model-building call: the LSTM build call, and MTNet's
`_get_attributes` and `_build_train` calls. -/
theorem C5_uncertainty_flag_forwarded {κ μ : Type} (ext : Externals κ μ)
    (h fd l1 d1 l2 d2 me lr hM fdM meM : PyVal) (u uM : Bool)
    (stL : LSTMForecaster μ) (trL : List (Event μ))
    (stM : MTNetForecaster κ μ) (trM : List (Event μ))
    (hIL : LSTMForecaster.init ext h fd l1 d1 l2 d2 me lr u = some (stL, trL))
    (hIM : MTNetForecaster.init ext hM fdM meM uM = some (stM, trM)) :
    Event.lstmKerasBuildCall (LSTMForecaster.builtInternal h fd) u
      ((LSTMForecaster.attrsOf h fd l1 d1 l2 d2 me lr u).model_config) ∈ trL ∧
    Event.mtnetGetAttributesCall uM
      (Dict.get (MTNetForecaster.configOf hM fdM meM) "metrics") (PyVal.pyInt 1)
      (MTNetForecaster.configOf hM fdM meM) ∈ trM ∧
    Event.mtnetBuildTrainCall uM
      (Dict.get (MTNetForecaster.configOf hM fdM meM) "metrics") ∈ trM := by
  obtain ⟨m, hm, hTm, hst, htr⟩ := lstm_init_inv hIL
  obtain ⟨k1, km, hk1, hkm, hTk, hstM, htrM⟩ := mtnet_init_inv hIM
  subst htr htrM
  refine ⟨?_, ?_, ?_⟩ <;> simp

/-- C9: every successfully constructed `MTNetForecaster` has `internal` set
to the `MTNetKerasModel` built inside `_build` (not `None`), so
`preprocess_input` is defined on it and returns
`internal._gen_hist_inputs(x)`. -/
theorem C9_internal_set_and_preprocess_defined {κ μ : Type} (ext : Externals κ μ)
    (hM fdM meM : PyVal) (uM : Bool)
    (stM : MTNetForecaster κ μ) (trM : List (Event μ))
    (hIM : MTNetForecaster.init ext hM fdM meM uM = some (stM, trM)) :
    ∃ i, stM.internal = some i ∧
      ∀ x, MTNetForecaster.preprocess_input ext stM x = some (ext.genHistInputs i x) := by
  obtain ⟨k1, km, hk1, hkm, hTk, hstM, htrM⟩ := mtnet_init_inv hIM
  subst hstM
  exact ⟨_, rfl, fun x => rfl⟩

/-- C10: `LSTMForecaster` keeps `feature_dim` out of `model_config`; the
internal model is constructed with `feature_num` unset, `_build` then assigns
`feature_num = self.feature_dim`, and the object the external builder
receives carries exactly that feature count. -/
theorem C10_feature_dim_assigned_not_in_config {κ μ : Type} (ext : Externals κ μ)
    (h fd l1 d1 l2 d2 me lr : PyVal) (u : Bool)
    (stL : LSTMForecaster μ) (trL : List (Event μ))
    (hIL : LSTMForecaster.init ext h fd l1 d1 l2 d2 me lr u = some (stL, trL)) :
    List.lookup "feature_dim" stL.model_config = none ∧
    List.lookup "feature_num" stL.model_config = none ∧
    (LSTMForecaster.mkInternal
      (LSTMForecaster.attrsOf h fd l1 d1 l2 d2 me lr u)).feature_num = none ∧
    (LSTMForecaster.builtInternal h fd).feature_num = some fd ∧
    Event.lstmKerasBuildCall (LSTMForecaster.builtInternal h fd) u stL.model_config ∈ trL := by
  obtain ⟨m, hm, hTm, hst, htr⟩ := lstm_init_inv hIL
  subst hst htr
  refine ⟨rfl, rfl, rfl, rfl, ?_⟩
  simp [LSTMForecaster.attrsOf]

/-- C7: construction is pure parameter passing over the instance being
constructed: replayed on an explicit heap, constructing a forecaster writes
only the freshly allocated instance (and the internal model it freshly
allocates), so every pre-existing object — in particular any previously
constructed forecaster and all its attributes — is left unchanged. -/
theorem C7_construction_frame {κ μ : Type} (ext : Externals κ μ)
    (h hL hM : Heap μ) (b aL aM : Nat) (hb : b ∈ h.map Prod.fst)
    (hz fd l1 d1 l2 d2 me lr hzM fdM meM : PyVal) (u uM : Bool)
    (hCL : LSTMForecaster.constructH ext h hz fd l1 d1 l2 d2 me lr u = some (hL, aL))
    (hCM : MTNetForecaster.constructH ext h hzM fdM meM uM = some (hM, aM)) :
    Heap.lookupObj hL b = Heap.lookupObj h b ∧
    Heap.lookupObj hM b = Heap.lookupObj h b := by
  have hbf : b ≠ Heap.fresh h := Heap.ne_fresh_of_mem h b hb
  constructor
  · simp only [LSTMForecaster.constructH] at hCL
    split at hCL
    · simp at hCL
    · split at hCL
      · simp at hCL
      · simp only [Option.some.injEq, Prod.mk.injEq] at hCL
        obtain ⟨hh, ha⟩ := hCL
        subst hh
        refine Eq.trans (Heap.lookupObj_writeAttr_ne _ _ _ _ _ ?_) ?_
        · exact hbf
        · refine Eq.trans (Heap.lookupObj_allocWrites_ne _ _ _ ?_) ?_
          · rw [Heap.keys_allocWrites]
            exact List.mem_cons_of_mem _ hb
          · exact Heap.lookupObj_allocWrites_ne _ _ _ hb
  · simp only [MTNetForecaster.constructH] at hCM
    split at hCM
    · simp at hCM
    · split at hCM
      · simp at hCM
      · split at hCM
        · simp at hCM
        · simp only [Option.some.injEq, Prod.mk.injEq] at hCM
          obtain ⟨hh, ha⟩ := hCM
          subst hh
          refine Eq.trans (Heap.lookupObj_writeAttr_ne _ _ _ _ _ ?_) ?_
          · exact hbf
          · refine Eq.trans (Heap.lookupObj_writeAttr_ne _ _ _ _ _ ?_) ?_
            · exact hbf
            · refine Eq.trans (Heap.lookupObj_allocWrites_ne _ _ _ ?_) ?_
              · rw [Heap.keys_allocWrites]
                exact List.mem_cons_of_mem _ hb
              · exact Heap.lookupObj_allocWrites_ne _ _ _ hb

/-! ### Witnesses at concrete inputs -/

/-- The `model_config` an `LSTMForecaster(horizon=3, feature_dim=2,
lstm_1_units=16, dropout_1=0, lstm_2_units=8, dropout_2=0, metric="mse",
lr=0)` builds. -/
def cfgLU : Dict :=
  [("lr", PyVal.pyInt 0), ("lstm_1_units", PyVal.pyInt 16), ("dropout_1", PyVal.pyInt 0),
   ("lstm_2_units", PyVal.pyInt 8), ("dropout_2", PyVal.pyInt 0),
   ("metric", PyVal.pyStr "mse")]

/-- The state that `LSTMForecaster` construction reaches on `extU` with the
`cfgLU` hyperparameters and `uncertainty=True`. -/
def stLU : LSTMForecaster Nat :=
  { horizon := PyVal.pyInt 3, check_optional_config := false, uncertainty := true,
    feature_dim := PyVal.pyInt 2, model_config := cfgLU, model_ := 7 }

/-- The trace of external calls for `stLU`. -/
def trLU : List (Event Nat) :=
  [Event.lstmKerasInit false (PyVal.pyInt 3),
   Event.lstmKerasBuildCall (LSTMKerasModel.mk false (PyVal.pyInt 3) (some (PyVal.pyInt 2)))
     true cfgLU,
   Event.tfparkKerasInit 7]

/-- The `model_config` an `MTNetForecaster(horizon=2, feature_dim=1,
metric="mse")` builds. -/
def cfgMU : Dict :=
  [("feature_num", PyVal.pyInt 1), ("output_dim", PyVal.pyInt 2),
   ("metrics", PyVal.pyList [PyVal.pyStr "mse"])]

/-- The state that `MTNetForecaster` construction reaches on `extU` with the
`cfgMU` hyperparameters and `uncertainty=False`. -/
def stMU : MTNetForecaster Unit Nat :=
  { check_optional_config := false, mc := false, model_config := cfgMU,
    internal := some (MTNetKerasModel.mk false PyVal.pyNone ()), model_ := 9 }

/-- The trace of external calls for `stMU`. -/
def trMU : List (Event Nat) :=
  [Event.mtnetKerasInit false PyVal.pyNone,
   Event.mtnetGetAttributesCall false (PyVal.pyList [PyVal.pyStr "mse"]) (PyVal.pyInt 1) cfgMU,
   Event.mtnetBuildTrainCall false (PyVal.pyList [PyVal.pyStr "mse"]),
   Event.tfparkKerasInit 9]

/-- Witness for C2 at concrete inputs. -/
theorem C2_construction_succeeds_and_exposes_attributes_witness :
    LSTMForecaster.init extU (PyVal.pyInt 3) (PyVal.pyInt 2) (PyVal.pyInt 16)
        (PyVal.pyInt 0) (PyVal.pyInt 8) (PyVal.pyInt 0) (PyVal.pyStr "mse")
        (PyVal.pyInt 0) true = some (stLU, trLU) ∧
    MTNetForecaster.init extU (PyVal.pyInt 2) (PyVal.pyInt 1) (PyVal.pyStr "mse") false =
      some (stMU, trMU) :=
  C2_construction_succeeds_and_exposes_attributes extU (PyVal.pyInt 3) (PyVal.pyInt 2)
    (PyVal.pyInt 16) (PyVal.pyInt 0) (PyVal.pyInt 8) (PyVal.pyInt 0) (PyVal.pyStr "mse")
    (PyVal.pyInt 0) (PyVal.pyInt 2) (PyVal.pyInt 1) (PyVal.pyStr "mse") true false
    7 () ((), 9) rfl rfl rfl rfl rfl

/-- Witness for C4 at concrete inputs. -/
theorem C4_model_config_exact_and_forwarded_witness :
    stLU.model_config = [("lr", PyVal.pyInt 0), ("lstm_1_units", PyVal.pyInt 16),
      ("dropout_1", PyVal.pyInt 0), ("lstm_2_units", PyVal.pyInt 8),
      ("dropout_2", PyVal.pyInt 0), ("metric", PyVal.pyStr "mse")] ∧
    Event.lstmKerasBuildCall (LSTMForecaster.builtInternal (PyVal.pyInt 3) (PyVal.pyInt 2))
      true stLU.model_config ∈ trLU ∧
    stMU.model_config = [("feature_num", PyVal.pyInt 1), ("output_dim", PyVal.pyInt 2),
      ("metrics", PyVal.pyList [PyVal.pyStr "mse"])] ∧
    Event.mtnetGetAttributesCall false (Dict.get stMU.model_config "metrics") (PyVal.pyInt 1)
      stMU.model_config ∈ trMU :=
  C4_model_config_exact_and_forwarded extU (PyVal.pyInt 3) (PyVal.pyInt 2) (PyVal.pyInt 16)
    (PyVal.pyInt 0) (PyVal.pyInt 8) (PyVal.pyInt 0) (PyVal.pyStr "mse") (PyVal.pyInt 0)
    (PyVal.pyInt 2) (PyVal.pyInt 1) (PyVal.pyStr "mse") true false stLU trLU stMU trMU rfl rfl

/-- Witness for C5 at concrete inputs. -/
theorem C5_uncertainty_flag_forwarded_witness :
    Event.lstmKerasBuildCall (LSTMForecaster.builtInternal (PyVal.pyInt 3) (PyVal.pyInt 2))
      true cfgLU ∈ trLU ∧
    Event.mtnetGetAttributesCall false (Dict.get cfgMU "metrics") (PyVal.pyInt 1) cfgMU ∈ trMU ∧
    Event.mtnetBuildTrainCall false (Dict.get cfgMU "metrics") ∈ trMU :=
  C5_uncertainty_flag_forwarded extU (PyVal.pyInt 3) (PyVal.pyInt 2) (PyVal.pyInt 16)
    (PyVal.pyInt 0) (PyVal.pyInt 8) (PyVal.pyInt 0) (PyVal.pyStr "mse") (PyVal.pyInt 0)
    (PyVal.pyInt 2) (PyVal.pyInt 1) (PyVal.pyStr "mse") true false stLU trLU stMU trMU rfl rfl

/-- Witness for C9 at concrete inputs. -/
theorem C9_internal_set_and_preprocess_defined_witness :
    ∃ i, stMU.internal = some i ∧
      ∀ x, MTNetForecaster.preprocess_input extU stMU x = some (extU.genHistInputs i x) :=
  C9_internal_set_and_preprocess_defined extU (PyVal.pyInt 2) (PyVal.pyInt 1)
    (PyVal.pyStr "mse") false stMU trMU rfl

/-- Witness for C10 at concrete inputs. -/
theorem C10_feature_dim_assigned_not_in_config_witness :
    List.lookup "feature_dim" stLU.model_config = none ∧
    List.lookup "feature_num" stLU.model_config = none ∧
    (LSTMForecaster.mkInternal (LSTMForecaster.attrsOf (PyVal.pyInt 3) (PyVal.pyInt 2)
      (PyVal.pyInt 16) (PyVal.pyInt 0) (PyVal.pyInt 8) (PyVal.pyInt 0) (PyVal.pyStr "mse")
      (PyVal.pyInt 0) true)).feature_num = none ∧
    (LSTMForecaster.builtInternal (PyVal.pyInt 3) (PyVal.pyInt 2)).feature_num =
      some (PyVal.pyInt 2) ∧
    Event.lstmKerasBuildCall (LSTMForecaster.builtInternal (PyVal.pyInt 3) (PyVal.pyInt 2))
      true stLU.model_config ∈ trLU :=
  C10_feature_dim_assigned_not_in_config extU (PyVal.pyInt 3) (PyVal.pyInt 2) (PyVal.pyInt 16)
    (PyVal.pyInt 0) (PyVal.pyInt 8) (PyVal.pyInt 0) (PyVal.pyStr "mse") (PyVal.pyInt 0) true
    stLU trLU rfl

/-- A heap holding one pre-existing object at address 1. -/
def heap0U : Heap Nat := [(1, [("x", HVal.val PyVal.pyNone)])]

/-- The heap after replaying `LSTMForecaster` construction on `heap0U`:
the forecaster lands at address 2, its internal model at address 3, and the
object at address 1 is untouched. -/
def heapLU : Heap Nat :=
  [(3, [("feature_num", HVal.val (PyVal.pyInt 2)),
        ("future_seq_len", HVal.val (PyVal.pyInt 3)),
        ("check_optional_config", HVal.val (PyVal.pyBool false))]),
   (2, [("model_", HVal.obj 7),
        ("model_config", HVal.dictV cfgLU),
        ("feature_dim", HVal.val (PyVal.pyInt 2)),
        ("uncertainty", HVal.val (PyVal.pyBool false)),
        ("check_optional_config", HVal.val (PyVal.pyBool false)),
        ("horizon", HVal.val (PyVal.pyInt 3))]),
   (1, [("x", HVal.val PyVal.pyNone)])]

/-- The heap after replaying `MTNetForecaster` construction on `heap0U`. -/
def heapMU : Heap Nat :=
  [(3, [("future_seq_len", HVal.val PyVal.pyNone),
        ("check_optional_config", HVal.val (PyVal.pyBool false))]),
   (2, [("model_", HVal.obj 9),
        ("internal", HVal.ref 3),
        ("internal", HVal.val PyVal.pyNone),
        ("model_config", HVal.dictV cfgMU),
        ("mc", HVal.val (PyVal.pyBool false)),
        ("check_optional_config", HVal.val (PyVal.pyBool false))]),
   (1, [("x", HVal.val PyVal.pyNone)])]

/-- Witness for C7 at concrete inputs. -/
theorem C7_construction_frame_witness :
    Heap.lookupObj heapLU 1 = Heap.lookupObj heap0U 1 ∧
    Heap.lookupObj heapMU 1 = Heap.lookupObj heap0U 1 :=
  C7_construction_frame extU heap0U heapLU heapMU 1 2 2
    (List.mem_singleton.mpr rfl)
    (PyVal.pyInt 3) (PyVal.pyInt 2) (PyVal.pyInt 16) (PyVal.pyInt 0) (PyVal.pyInt 8)
    (PyVal.pyInt 0) (PyVal.pyStr "mse") (PyVal.pyInt 0) (PyVal.pyInt 2) (PyVal.pyInt 1)
    (PyVal.pyStr "mse") false false rfl rfl
